import Mathlib

/-!
Verification development for the AnalyticsMesh node (src/analytics_mesh.py,
src/main.py, src/thrift_helper.py).

The embedding is a shallow one: the node's configuration and mutable fields
become a `NodeState` record, and each Python method becomes a pure Lean
function on that record.  File-system effects are made observable by having
each operation return a trace of `FileEvent`s (one event per attempted I/O
call), and fallibility of the operating system is modelled by an explicit
`FlushFail` oracle naming the first I/O step that fails, if any.  Exceptions
become `Except` results.

The sketch itself lives in the external `datasketches` library, which is not
part of this repository.  Its operations (`update`, `serialize_compact`,
`deserialize`, hll-union) are therefore abstracted into a `SketchOps`
structure; a small executable instance `listSketchOps` is provided so that
every statement can be evaluated on concrete inputs.
-/

/-- Durability tiers, translated from `DurabilityLevel` in analytics_mesh.py. -/
inductive DurabilityLevel
  | strict
  | delayed
  | volatile
deriving DecidableEq

/-- One attempted file-system call.  `write` carries the payload handed to the
call; `removeFile` carries whether the file still existed when the deletion was
attempted (`os.remove` raises `FileNotFoundError` when it did not). -/
inductive FileEvent
  | openRead (path : String)
  | openWrite (path : String)
  | createTemp (path : String)
  | write (path : String) (payload : List Nat)
  | flushFile (path : String)
  | fsyncFile (path : String)
  | renameFile (src : String) (dst : String)
  | openDir (path : String)
  | fsyncDir (path : String)
  | closeDir (path : String)
  | removeFile (path : String) (found : Bool)
deriving DecidableEq

/-- Errors surfaced by the node's operations: filesystem failures during a
flush or load, `CorruptSketch`-style deserialization failures, and Thrift
transport exceptions. -/
inductive MeshError
  | ioError
  | corruptSketch
  | transport
deriving DecidableEq

/-- Steps of the atomic temp-file replace protocol in `committer_work`, in
program order. -/
inductive AtomicStep
  | createTemp
  | writeTemp
  | flushTemp
  | fsyncTemp
  | renameTemp
  | openDirFd
  | fsyncDirFd
deriving DecidableEq

/-- Steps of the non-atomic overwrite path in `committer_work`, in program
order. -/
inductive PlainStep
  | openTarget
  | writeTarget
  | flushTarget
  | fsyncTarget
deriving DecidableEq

/-- Failure oracle for one flush: either every I/O call succeeds, or the named
step is the first one to raise. -/
inductive FlushFail
  | noFail
  | atomicFail (step : AtomicStep)
  | plainFail (step : PlainStep)
deriving DecidableEq

/-- Configuration-validation errors.  Each constructor corresponds to one
`ValueError` / `ArgumentTypeError` site in `AnalyticsMesh.__init__`,
`parse_address` or `validate_sketch_file`. -/
inductive ConfigError
  | emptyHost
  | portOutOfRange
  | portNotInteger
  | atomicityWithVolatile
  | sketchFileRequired
  | emptyBasename
  | pathIsDirectory
  | fileNotWritable
  | dirNotWritable
deriving DecidableEq

/-- Modelled from the spec: the operations of the external `datasketches`
HyperLogLog sketch library (not part of this repository's sources).  `S` is
the in-memory sketch representation, `D` the datum type fed to `update`.
Byte strings are `List Nat`.  `deserialize` returns `none` where the library
raises on malformed bytes; `union` is the composite
`hll_union(LOG_K); update(a); update(b); get_result()` used by
`AnalyticsMesh.merge`.  Distinct in-memory sketches may share one compact
serialization, which is why nothing here assumes `serialize_compact` is
injective. -/
structure SketchOps (S D : Type) where
  serialize_compact : S → List Nat
  deserialize : List Nat → Option S
  union : S → S → S
  update : S → D → S

/-- The fields of an `AnalyticsMesh` object that the specified behaviour
depends on.  Thread handles, the Thrift server object and the saved signal
handlers are runtime plumbing and are not represented. -/
structure NodeState (S : Type) where
  enable_server : Bool
  enable_client : Bool
  server_address : Option (String × Int)
  client_addresses : Option (List (String × Int))
  sketch_file : Option String
  sketch_file_dirname : Option String
  sketch_file_basename : Option String
  durability_level : DurabilityLevel
  atomicity : Bool
  enable_committer : Bool
  is_dirty : Bool
  sketch : S

/-- Read-only view of the ambient file system used by the constructor's path
checks (`os.path.isdir`, `os.path.exists`, `os.access(..., W_OK)`). -/
structure FsInfo where
  isDir : String → Bool
  pathExists : String → Bool
  isWritable : String → Bool

/-- Python's `x or y` on an optional boolean `x`: both `None` and `False` are
falsy, so the right operand is used unless `x` is literally `True`.  This is
the exact semantics of `atomicity or (durability_level != VOLATILE)`. -/
def pyOr (x : Option Bool) (y : Bool) : Bool :=
  match x with
  | some true => true
  | _ => y

/-- Index of the last occurrence of `c` in `cs`, if any. -/
def rfindChar (cs : List Char) (c : Char) : Option Nat :=
  match cs.reverse.findIdx? (fun x => x == c) with
  | none => none
  | some j => some (cs.length - 1 - j)

/-- `os.path.split` for POSIX paths: split after the last slash, then strip
trailing slashes from the head unless the head consists only of slashes. -/
def splitPath (p : String) : String × String :=
  let cs := p.toList
  let i :=
    match rfindChar cs '/' with
    | none => 0
    | some j => j + 1
  let headCs := cs.take i
  let tailCs := cs.drop i
  let headCs :=
    if !headCs.isEmpty && headCs.any (fun c => c != '/') then
      (headCs.reverse.dropWhile (fun c => c == '/')).reverse
    else headCs
  (String.mk headCs, String.mk tailCs)

/-- `str.rpartition(":")`, reduced to the two pieces `parse_address` uses:
the part before the last colon and the part after it.  When there is no colon
the head is empty and the tail is the whole string, as in Python. -/
def rpartitionColon (s : String) : String × String :=
  let cs := s.toList
  match rfindChar cs ':' with
  | none => ("", String.mk cs)
  | some j => (String.mk (cs.take j), String.mk (cs.drop (j + 1)))

/-- `str.strip("[]")`: drop every leading and trailing `[` or `]`. -/
def stripBrackets (s : String) : String :=
  let isBr := fun c => c == '[' || c == ']'
  let cs := s.toList
  String.mk (((cs.dropWhile isBr).reverse.dropWhile isBr).reverse)

/-- Validation of the server address performed at the top of
`AnalyticsMesh.__init__`: non-empty host and port within 0..65535. -/
def checkServerAddress (a : Option (String × Int)) : Except ConfigError Unit :=
  match a with
  | none => Except.ok ()
  | some (host, port) =>
    if host = "" then Except.error ConfigError.emptyHost
    else if ¬ (0 ≤ port ∧ port ≤ 65535) then Except.error ConfigError.portOutOfRange
    else Except.ok ()

/-- The sketch-file path checks of `AnalyticsMesh.__init__` (shared verbatim
with `validate_sketch_file` in main.py): split the path, default the dirname
to ".", reject an empty basename, a directory, an existing non-writable file,
and a non-writable parent directory.  Returns the `(dirname, basename)` pair
stored on the object. -/
def validateSketchFilePath (sketch_file : Option String) (fs : FsInfo) :
    Except ConfigError (Option (String × String)) :=
  match sketch_file with
  | none => Except.ok none
  | some p =>
    let pr := splitPath p
    let dn := if pr.1 = "" then "." else pr.1
    if pr.2 = "" then Except.error ConfigError.emptyBasename
    else if fs.isDir p then Except.error ConfigError.pathIsDirectory
    else if fs.pathExists p && !(fs.isWritable p) then Except.error ConfigError.fileNotWritable
    else if !(fs.isWritable dn) then Except.error ConfigError.dirNotWritable
    else Except.ok (some (dn, pr.2))

/-- `AnalyticsMesh.__init__`.  Note three facts carried over from the source:
the server address is validated but `client_addresses` is not; the resolved
atomicity is `atomicity or (durability_level != VOLATILE)` with Python
truthiness (`pyOr`); and under VOLATILE only the atomicity flag is checked —
a present sketch file is not rejected. -/
def init (S : Type) (emptySketch : S)
    (enable_server enable_client : Bool)
    (server_address : Option (String × Int))
    (client_addresses : Option (List (String × Int)))
    (sketch_file : Option String)
    (durability_level : DurabilityLevel)
    (atomicity : Option Bool)
    (fs : FsInfo) : Except ConfigError (NodeState S) :=
  match checkServerAddress server_address with
  | Except.error e => Except.error e
  | Except.ok _ =>
    let atomicityVal :=
      pyOr atomicity (if durability_level = DurabilityLevel.volatile then false else true)
    let comboCheck : Except ConfigError Unit :=
      if durability_level = DurabilityLevel.volatile then
        (if atomicityVal then Except.error ConfigError.atomicityWithVolatile else Except.ok ())
      else
        (if sketch_file = none then Except.error ConfigError.sketchFileRequired else Except.ok ())
    match comboCheck with
    | Except.error e => Except.error e
    | Except.ok _ =>
      match validateSketchFilePath sketch_file fs with
      | Except.error e => Except.error e
      | Except.ok dnbn =>
        Except.ok {
          enable_server := enable_server
          enable_client := enable_client
          server_address := server_address
          client_addresses := client_addresses
          sketch_file := sketch_file
          sketch_file_dirname := Option.map Prod.fst dnbn
          sketch_file_basename := Option.map Prod.snd dnbn
          durability_level := durability_level
          atomicity := atomicityVal
          enable_committer := decide (durability_level = DurabilityLevel.delayed)
          is_dirty := false
          sketch := emptySketch }

/-- Decimal-digit accumulator for `pyToInt`. -/
def parseDigitsAux : List Char → Nat → Option Nat
  | [], acc => some acc
  | c :: cs, acc =>
      if '0' ≤ c ∧ c ≤ '9' then parseDigitsAux cs (acc * 10 + (c.toNat - '0'.toNat))
      else none

/-- Python's `int()` on the strings relevant to `parse_address`: an optional
sign followed by decimal digits; anything else fails.  (Python also strips
whitespace and permits digit-group underscores; those inputs play no role in
the claims settled here.) -/
def pyToInt (s : String) : Option Int :=
  match s.toList with
  | [] => none
  | '-' :: cs => if cs = [] then none else (parseDigitsAux cs 0).map (fun n => -(n : Int))
  | '+' :: cs => if cs = [] then none else (parseDigitsAux cs 0).map (fun n => (n : Int))
  | cs => (parseDigitsAux cs 0).map (fun n => (n : Int))

/-- `parse_address` from main.py: split at the last colon, strip square
brackets from the host, parse the port and range-check it. -/
def parse_address (s : String) : Except ConfigError (String × Int) :=
  let pr := rpartitionColon s
  let host := stripBrackets pr.1
  if host = "" then Except.error ConfigError.emptyHost
  else
    match pyToInt pr.2 with
    | none => Except.error ConfigError.portNotInteger
    | some port =>
      if ¬ (0 ≤ port ∧ port ≤ 65535) then Except.error ConfigError.portOutOfRange
      else Except.ok (host, port)

/-- Name of the temporary file created by `tempfile.NamedTemporaryFile` in the
atomic flush path: directory of the target, basename followed by an
underscore, a random component chosen by the library, and the `.tmp` suffix. -/
def tmpPath (dir base rand : String) : String :=
  dir ++ "/" ++ base ++ "_" ++ rand ++ ".tmp"

/-- The atomic temp-file replace protocol of `committer_work` (atomicity on):
create the temp file, write the payload, flush and fsync it, rename it over
the target, then open / fsync / close the containing directory.  On a failure
the temporary file is deleted when it was created; after a successful rename
it is already gone, so that deletion raises `FileNotFoundError`, which the
source logs and ignores before re-raising the original error.  Returns the
trace of attempted calls and whether the flush succeeded. -/
def atomic_replace (dir base target : String) (payload : List Nat) (rand : String)
    (fail : FlushFail) : List FileEvent × Bool :=
  let tmp := tmpPath dir base rand
  match fail with
  | FlushFail.atomicFail AtomicStep.createTemp =>
    ([FileEvent.createTemp tmp], false)
  | FlushFail.atomicFail AtomicStep.writeTemp =>
    ([FileEvent.createTemp tmp, FileEvent.write tmp payload,
      FileEvent.removeFile tmp true], false)
  | FlushFail.atomicFail AtomicStep.flushTemp =>
    ([FileEvent.createTemp tmp, FileEvent.write tmp payload, FileEvent.flushFile tmp,
      FileEvent.removeFile tmp true], false)
  | FlushFail.atomicFail AtomicStep.fsyncTemp =>
    ([FileEvent.createTemp tmp, FileEvent.write tmp payload, FileEvent.flushFile tmp,
      FileEvent.fsyncFile tmp, FileEvent.removeFile tmp true], false)
  | FlushFail.atomicFail AtomicStep.renameTemp =>
    ([FileEvent.createTemp tmp, FileEvent.write tmp payload, FileEvent.flushFile tmp,
      FileEvent.fsyncFile tmp, FileEvent.renameFile tmp target,
      FileEvent.removeFile tmp true], false)
  | FlushFail.atomicFail AtomicStep.openDirFd =>
    ([FileEvent.createTemp tmp, FileEvent.write tmp payload, FileEvent.flushFile tmp,
      FileEvent.fsyncFile tmp, FileEvent.renameFile tmp target, FileEvent.openDir dir,
      FileEvent.removeFile tmp false], false)
  | FlushFail.atomicFail AtomicStep.fsyncDirFd =>
    ([FileEvent.createTemp tmp, FileEvent.write tmp payload, FileEvent.flushFile tmp,
      FileEvent.fsyncFile tmp, FileEvent.renameFile tmp target, FileEvent.openDir dir,
      FileEvent.fsyncDir dir, FileEvent.closeDir dir,
      FileEvent.removeFile tmp false], false)
  | _ =>
    ([FileEvent.createTemp tmp, FileEvent.write tmp payload, FileEvent.flushFile tmp,
      FileEvent.fsyncFile tmp, FileEvent.renameFile tmp target, FileEvent.openDir dir,
      FileEvent.fsyncDir dir, FileEvent.closeDir dir], true)

/-- The non-atomic overwrite path of `committer_work` (atomicity off): open the
target for truncating write, write the payload, flush, fsync. -/
def plain_write (target : String) (payload : List Nat) (fail : FlushFail) :
    List FileEvent × Bool :=
  match fail with
  | FlushFail.plainFail PlainStep.openTarget =>
    ([FileEvent.openWrite target], false)
  | FlushFail.plainFail PlainStep.writeTarget =>
    ([FileEvent.openWrite target, FileEvent.write target payload], false)
  | FlushFail.plainFail PlainStep.flushTarget =>
    ([FileEvent.openWrite target, FileEvent.write target payload,
      FileEvent.flushFile target], false)
  | FlushFail.plainFail PlainStep.fsyncTarget =>
    ([FileEvent.openWrite target, FileEvent.write target payload,
      FileEvent.flushFile target, FileEvent.fsyncFile target], false)
  | _ =>
    ([FileEvent.openWrite target, FileEvent.write target payload,
      FileEvent.flushFile target, FileEvent.fsyncFile target], true)

/-- `AnalyticsMesh.committer_work`: return `false` immediately under VOLATILE
durability, when no sketch file is configured, or when the dirty flag is
clear; otherwise run the atomic or plain write protocol on the current
compact serialization.  Only after every I/O call has succeeded is the dirty
flag cleared and `true` returned; an I/O failure propagates as an error and
leaves the state untouched. -/
def committer_work {S D : Type} (ops : SketchOps S D) (st : NodeState S)
    (rand : String) (fail : FlushFail) :
    List FileEvent × Except MeshError Bool × NodeState S :=
  if st.durability_level = DurabilityLevel.volatile then ([], Except.ok false, st)
  else
    match st.sketch_file with
    | none => ([], Except.ok false, st)
    | some target =>
      if st.is_dirty then
        let payload := ops.serialize_compact st.sketch
        let res :=
          if st.atomicity then
            atomic_replace (st.sketch_file_dirname.getD ".")
              (st.sketch_file_basename.getD "") target payload rand fail
          else
            plain_write target payload fail
        if res.2 then (res.1, Except.ok true, { st with is_dirty := false })
        else (res.1, Except.error MeshError.ioError, st)
      else ([], Except.ok false, st)

/-- `AnalyticsMesh.reader_work`, the one-shot load performed by
`start_handler`: nothing happens without a configured sketch file; a missing
file (`FileNotFoundError` on open) returns `false`; otherwise the file's
bytes are deserialized into the sketch (raising on malformed contents) and
`true` is returned.  The dirty flag is never touched.  `file` is the
observable content of the configured path (`none` = absent). -/
def reader_work {S D : Type} (ops : SketchOps S D) (st : NodeState S)
    (file : Option (List Nat)) :
    List FileEvent × Except MeshError (Bool × NodeState S) :=
  match st.sketch_file with
  | none => ([], Except.ok (false, st))
  | some path =>
    match file with
    | none => ([FileEvent.openRead path], Except.ok (false, st))
    | some bytes =>
      match ops.deserialize bytes with
      | none => ([FileEvent.openRead path], Except.error MeshError.corruptSketch)
      | some sk => ([FileEvent.openRead path], Except.ok (true, { st with sketch := sk }))

/-- The flush performed by `AnalyticsMesh.signal_handler` before it re-raises
the signal: `committer_work`, but only under DELAYED durability.  The
handler-juggling and `os.kill` re-raise are process-level mechanics outside
this embedding. -/
def signal_handler_flush {S D : Type} (ops : SketchOps S D) (st : NodeState S)
    (rand : String) (fail : FlushFail) :
    List FileEvent × Except MeshError Bool × NodeState S :=
  if st.durability_level = DurabilityLevel.delayed then committer_work ops st rand fail
  else ([], Except.ok false, st)

/-- The final flush performed by `AnalyticsMesh.stop_handler` after stopping
the server, client and committer: again `committer_work` under DELAYED only. -/
def stop_handler_flush {S D : Type} (ops : SketchOps S D) (st : NodeState S)
    (rand : String) (fail : FlushFail) :
    List FileEvent × Except MeshError Bool × NodeState S :=
  if st.durability_level = DurabilityLevel.delayed then committer_work ops st rand fail
  else ([], Except.ok false, st)

/-- `AnalyticsMesh.update_sketch`: fold the datum into the sketch, set dirty,
and under STRICT durability synchronously run `committer_work`. -/
def update_sketch {S D : Type} (ops : SketchOps S D) (st : NodeState S) (datum : D)
    (rand : String) (fail : FlushFail) :
    List FileEvent × Except MeshError Unit × NodeState S :=
  let st1 := { st with sketch := ops.update st.sketch datum, is_dirty := true }
  if st1.durability_level = DurabilityLevel.strict then
    let r := committer_work ops st1 rand fail
    (r.1, Except.map (fun _ => ()) r.2.1, r.2.2)
  else ([], Except.ok (), st1)

/-- `AnalyticsMesh.merge`: the union of the local sketch with `other` via a
fresh `hll_union(LOG_K)`. -/
def merge {S D : Type} (ops : SketchOps S D) (st : NodeState S) (other : S) : S :=
  ops.union st.sketch other

/-- The unconditional part of `AnalyticsMesh.imerge`: compute the union, set
dirty to `old_dirty or (compact(union) != compact(local))` — the comparison is
between compact serializations, taken while `self.sketch` is still the old
sketch — then replace the local sketch with the union. -/
def imergeCore {S D : Type} (ops : SketchOps S D) (st : NodeState S) (other : S) :
    NodeState S :=
  let merged_sketch := merge ops st other
  { st with
    is_dirty := st.is_dirty ||
      (ops.serialize_compact merged_sketch != ops.serialize_compact st.sketch)
    sketch := merged_sketch }

/-- `AnalyticsMesh.imerge`: the merge step above followed, under STRICT
durability, by a synchronous `committer_work`. -/
def imerge {S D : Type} (ops : SketchOps S D) (st : NodeState S) (other : S)
    (rand : String) (fail : FlushFail) :
    List FileEvent × Except MeshError Unit × NodeState S :=
  let st1 := imergeCore ops st other
  if st1.durability_level = DurabilityLevel.strict then
    let r := committer_work ops st1 rand fail
    (r.1, Except.map (fun _ => ()) r.2.1, r.2.2)
  else ([], Except.ok (), st1)

/-- `AnalyticsMesh.push` (the Push RPC handler): deserialize the inbound
payload — a malformed payload raises before anything else happens — and merge
the result in. -/
def push {S D : Type} (ops : SketchOps S D) (st : NodeState S)
    (other_serialized : List Nat) (rand : String) (fail : FlushFail) :
    List FileEvent × Except MeshError Unit × NodeState S :=
  match ops.deserialize other_serialized with
  | none => ([], Except.error MeshError.corruptSketch, st)
  | some other => imerge ops st other rand fail

/-- `AnalyticsMesh.pull` (the Pull RPC handler): the compact serialization of
the local sketch. -/
def pull {S D : Type} (ops : SketchOps S D) (st : NodeState S) : List Nat :=
  ops.serialize_compact st.sketch

/-- Observable behaviour of one remote peer during a `push_pull` exchange:
whether our `push` call gets through the transport, and what the `pull` call
returns (`none` = transport error on pull). -/
structure PeerOutcome where
  pushOk : Bool
  pullReply : Option (List Nat)

/-- `AnalyticsMesh.push_pull` with a best-effort (`reliable=False`) client:
send our snapshot via `push`, receive the peer's snapshot via `pull` —
either call may raise a transport error — then deserialize the reply (which
may raise `CorruptSketch`) and merge it in. -/
def push_pull {S D : Type} (ops : SketchOps S D) (st : NodeState S)
    (peer : PeerOutcome) (rand : String) (fail : FlushFail) :
    List FileEvent × Except MeshError Unit × NodeState S :=
  if peer.pushOk = false then ([], Except.error MeshError.transport, st)
  else
    match peer.pullReply with
    | none => ([], Except.error MeshError.transport, st)
    | some other_serialized =>
      match ops.deserialize other_serialized with
      | none => ([], Except.error MeshError.corruptSketch, st)
      | some other => imerge ops st other rand fail

/-- `AnalyticsMesh.anti_entropy`: construct the best-effort Thrift client for
the peer (connection caching is transport plumbing, not modelled) and run the
`push_pull` exchange. -/
def anti_entropy {S D : Type} (ops : SketchOps S D) (st : NodeState S)
    (peer : PeerOutcome) (rand : String) (fail : FlushFail) :
    List FileEvent × Except MeshError Unit × NodeState S :=
  push_pull ops st peer rand fail

/-- `AnalyticsMesh.try_anti_entropy`: run the exchange and catch exactly
`TTransportException`, converting it to a `false` return; every other error
propagates to the caller. -/
def try_anti_entropy {S D : Type} (ops : SketchOps S D) (st : NodeState S)
    (peer : PeerOutcome) (rand : String) (fail : FlushFail) :
    List FileEvent × Except MeshError Bool × NodeState S :=
  match anti_entropy ops st peer rand fail with
  | (tr, Except.ok _, st') => (tr, Except.ok true, st')
  | (tr, Except.error MeshError.transport, st') => (tr, Except.ok false, st')
  | (tr, Except.error e, st') => (tr, Except.error e, st')

/-- One round of `AnalyticsMesh.client_work` after sampling: visit the sampled
peers in order, running `try_anti_entropy` against each; an exception escaping
`try_anti_entropy` aborts the loop and propagates out of the round. -/
def client_work {S D : Type} (ops : SketchOps S D) :
    NodeState S → List PeerOutcome → String → FlushFail →
    List FileEvent × Except MeshError Unit × NodeState S
  | st, [], _, _ => ([], Except.ok (), st)
  | st, peer :: rest, rand, fail =>
    match try_anti_entropy ops st peer rand fail with
    | (tr, Except.ok _, st') =>
      let r := client_work ops st' rest rand fail
      (tr ++ r.1, r.2.1, r.2.2)
    | (tr, Except.error e, st') => (tr, Except.error e, st')

/-- Insertion into a sorted list, for the canonical byte form of the concrete
sketch model below. -/
def insertSorted (x : Nat) : List Nat → List Nat
  | [] => [x]
  | y :: ys => if x ≤ y then x :: y :: ys else y :: insertSorted x ys

/-- Canonical (sorted, duplicate-free) form of a byte list. -/
def canonicalBytes (l : List Nat) : List Nat :=
  (l.foldr insertSorted []).dedup

/-- A small executable instance of the sketch interface, used to evaluate the
theorems on concrete inputs: the in-memory sketch is the list of items in
arrival order, its compact serialization is the canonical sorted set, union
is concatenation, and deserialization accepts exactly canonical byte lists.
Distinct in-memory sketches (for example `[1, 2]` and `[2, 1]`) share one
compact serialization, as in the real library. -/
def listSketchOps : SketchOps (List Nat) Nat where
  serialize_compact := canonicalBytes
  deserialize := fun bs => if canonicalBytes bs = bs then some bs else none
  union := fun a b => a ++ b
  update := fun s d => s ++ [d]

/-- A file system in which no path exists and everything is writable; enough
for the constructor's path checks to pass. -/
def trivialFs : FsInfo where
  isDir := fun _ => false
  pathExists := fun _ => false
  isWritable := fun _ => true

/-- `true` iff the trace contains a write call carrying exactly `payload`. -/
def writesPayload (tr : List FileEvent) (payload : List Nat) : Bool :=
  tr.any (fun ev =>
    match ev with
    | FileEvent.write _ q => q == payload
    | _ => false)

/-- C1: `committer_work` (flush_once) is a no-op returning `false` under
VOLATILE durability or when the dirty flag is clear; otherwise — on any state
satisfying the constructor's invariant that non-VOLATILE durability comes
with a configured sketch file — a fault-free run writes the current compact
serialization, clears the dirty flag and returns `true`, while a run on which
any I/O step fails propagates the error and leaves the dirty flag set. -/
theorem committer_flush_semantics {S D : Type} (ops : SketchOps S D) (st : NodeState S)
    (rand : String) (fail : FlushFail)
    (hinv : st.durability_level ≠ DurabilityLevel.volatile → st.sketch_file.isSome = true) :
    ((st.durability_level = DurabilityLevel.volatile ∨ st.is_dirty = false) →
      committer_work ops st rand fail = ([], Except.ok false, st))
    ∧ (st.durability_level ≠ DurabilityLevel.volatile → st.is_dirty = true →
        fail = FlushFail.noFail →
        (committer_work ops st rand fail).2.1 = Except.ok true
        ∧ (committer_work ops st rand fail).2.2 = { st with is_dirty := false }
        ∧ writesPayload (committer_work ops st rand fail).1
            (ops.serialize_compact st.sketch) = true)
    ∧ (∀ tr e st', committer_work ops st rand fail = (tr, Except.error e, st') →
        st'.is_dirty = true) := by
  refine ⟨?_, ?_, ?_⟩
  · rintro (h | h)
    · simp [committer_work, h]
    · unfold committer_work
      by_cases hv : st.durability_level = DurabilityLevel.volatile
      · simp [hv]
      · rw [if_neg hv]
        cases hsf : st.sketch_file with
        | none => rfl
        | some target => simp [h]
  · intro hnv hd hf
    subst hf
    have hs := hinv hnv
    cases hsf : st.sketch_file with
    | none => rw [hsf] at hs; simp at hs
    | some target =>
      by_cases ha : st.atomicity = true
      · simp [committer_work, hnv, hsf, hd, ha, atomic_replace, writesPayload]
      · simp [committer_work, hnv, hsf, hd, ha, plain_write, writesPayload]
  · intro tr e st' heq
    obtain ⟨es, ec, sa, ca, sf, dn, bn, dl, atm, ecm, dirty, sk⟩ := st
    cases dl <;> cases sf <;> cases dirty <;> cases atm <;>
      rcases fail with _ | s | s <;>
      first
        | (cases s <;> simp_all [committer_work, atomic_replace, plain_write] <;>
            exact heq.2.2 ▸ rfl)
        | (simp_all [committer_work, atomic_replace, plain_write] <;>
            exact heq.2.2 ▸ rfl)

/-- A concrete DELAYED node, dirty, with an atomic flush configured. -/
def c1State : NodeState (List Nat) where
  enable_server := false
  enable_client := false
  server_address := none
  client_addresses := none
  sketch_file := some "d/f"
  sketch_file_dirname := some "d"
  sketch_file_basename := some "f"
  durability_level := DurabilityLevel.delayed
  atomicity := true
  enable_committer := true
  is_dirty := true
  sketch := [5]

/-- Witness for C1: the fault-free flush on a concrete dirty DELAYED node
returns `true`, clears the dirty flag and writes the compact serialization. -/
theorem committer_flush_semantics_witness :
    (committer_work listSketchOps c1State "r" FlushFail.noFail).2.1 = Except.ok true
    ∧ (committer_work listSketchOps c1State "r" FlushFail.noFail).2.2
        = { c1State with is_dirty := false }
    ∧ writesPayload (committer_work listSketchOps c1State "r" FlushFail.noFail).1
        (listSketchOps.serialize_compact c1State.sketch) = true :=
  (committer_flush_semantics listSketchOps c1State "r" FlushFail.noFail
    (fun _ => rfl)).2.1 (by decide) rfl rfl

/-- C2: `imerge` (merge_in) replaces the local sketch with the union of the
local and inbound sketches, and sets the dirty flag to
`old_dirty OR compact(union) ≠ compact(old local sketch)`, the comparison
being between compact serializations (the abstract `serialize_compact`, which
may identify distinct in-memory sketches).  The merge step is unconditional;
under STRICT durability it is followed by a synchronous `committer_work` on
the merged state, and otherwise `imerge` returns the merged state directly. -/
theorem imerge_union_dirty {S D : Type} (ops : SketchOps S D) (st : NodeState S)
    (other : S) :
    (imergeCore ops st other).sketch = merge ops st other
    ∧ ((imergeCore ops st other).is_dirty = true ↔
        (st.is_dirty = true ∨
          ops.serialize_compact (merge ops st other) ≠ ops.serialize_compact st.sketch))
    ∧ (∀ rand fail, st.durability_level ≠ DurabilityLevel.strict →
        imerge ops st other rand fail = ([], Except.ok (), imergeCore ops st other))
    ∧ (∀ rand fail, st.durability_level = DurabilityLevel.strict →
        imerge ops st other rand fail =
          ((committer_work ops (imergeCore ops st other) rand fail).1,
            Except.map (fun _ => ())
              (committer_work ops (imergeCore ops st other) rand fail).2.1,
            (committer_work ops (imergeCore ops st other) rand fail).2.2)) := by
  refine ⟨rfl, ?_, ?_, ?_⟩
  · simp [imergeCore, merge]
  · intro rand fail h
    simp [imerge, imergeCore, h]
  · intro rand fail h
    simp [imerge, imergeCore, h]

/-- A concrete VOLATILE node whose in-memory sketch `[1, 2]` is already
canonical; merging in `[2]` yields the in-memory sketch `[1, 2, 2]`, whose
compact serialization equals the old one. -/
def c2State : NodeState (List Nat) where
  enable_server := false
  enable_client := false
  server_address := none
  client_addresses := none
  sketch_file := none
  sketch_file_dirname := none
  sketch_file_basename := none
  durability_level := DurabilityLevel.volatile
  atomicity := false
  enable_committer := false
  is_dirty := false
  sketch := [1, 2]

/-- Witness for C2: on the concrete node, merging in `[2]` replaces the sketch
with the union `[1, 2, 2]` and leaves the dirty flag clear, because the
compact serializations coincide even though the in-memory sketches differ. -/
theorem imerge_union_dirty_witness :
    (imergeCore listSketchOps c2State [2]).sketch = merge listSketchOps c2State [2]
    ∧ imerge listSketchOps c2State [2] "r" FlushFail.noFail
        = ([], Except.ok (), imergeCore listSketchOps c2State [2])
    ∧ (imergeCore listSketchOps c2State [2]).sketch = [1, 2, 2]
    ∧ (imergeCore listSketchOps c2State [2]).is_dirty = false :=
  ⟨(imerge_union_dirty listSketchOps c2State [2]).1,
    (imerge_union_dirty listSketchOps c2State [2]).2.2.1 "r" FlushFail.noFail (by decide),
    by decide, by decide⟩

/-- C3: `update_sketch` folds the datum into the sketch and sets the dirty
flag; under STRICT durability it then synchronously runs the committer's
flush on the updated state before returning, and under any other durability
it returns the updated dirty state directly. -/
theorem update_sets_dirty {S D : Type} (ops : SketchOps S D) (st : NodeState S)
    (datum : D) (rand : String) (fail : FlushFail) :
    (st.durability_level ≠ DurabilityLevel.strict →
      update_sketch ops st datum rand fail =
        ([], Except.ok (), { st with sketch := ops.update st.sketch datum, is_dirty := true }))
    ∧ (st.durability_level = DurabilityLevel.strict →
      update_sketch ops st datum rand fail =
        ((committer_work ops { st with sketch := ops.update st.sketch datum, is_dirty := true }
            rand fail).1,
          Except.map (fun _ => ())
            (committer_work ops { st with sketch := ops.update st.sketch datum, is_dirty := true }
              rand fail).2.1,
          (committer_work ops { st with sketch := ops.update st.sketch datum, is_dirty := true }
            rand fail).2.2)) := by
  constructor
  · intro h
    simp [update_sketch, h]
  · intro h
    simp [update_sketch, h]

/-- Witness for C3: updating the concrete non-STRICT node with datum `7`
appends it to the sketch and sets the dirty flag. -/
theorem update_sets_dirty_witness :
    update_sketch listSketchOps c2State 7 "r" FlushFail.noFail
      = ([], Except.ok (), { c2State with sketch := [1, 2, 7], is_dirty := true }) :=
  (update_sets_dirty listSketchOps c2State 7 "r" FlushFail.noFail).1 (by decide)

/-- C4: with atomicity on, a dirty flush follows the atomic write protocol in
order — create the temp file `<dirname>/<basename>_<random>.tmp` next to the
target, write the full payload, flush and fsync the descriptor, rename over
the target, open/fsync/close the containing directory.  On a failure after
the temp file was created and before the rename completed, the still-present
temp file is deleted before the error propagates; on a failure after the
rename (directory open or fsync) the deletion attempt finds the file already
gone — `FileNotFoundError` — which is logged and ignored while the original
error still propagates.  A failure creating the temp file triggers no
deletion. -/
theorem atomic_protocol {S D : Type} (ops : SketchOps S D) (st : NodeState S)
    (rand : String) (target dir base : String)
    (hnv : st.durability_level ≠ DurabilityLevel.volatile)
    (hf : st.sketch_file = some target)
    (hdn : st.sketch_file_dirname = some dir)
    (hbn : st.sketch_file_basename = some base)
    (hd : st.is_dirty = true)
    (ha : st.atomicity = true) :
    committer_work ops st rand FlushFail.noFail =
      ([FileEvent.createTemp (tmpPath dir base rand),
        FileEvent.write (tmpPath dir base rand) (ops.serialize_compact st.sketch),
        FileEvent.flushFile (tmpPath dir base rand),
        FileEvent.fsyncFile (tmpPath dir base rand),
        FileEvent.renameFile (tmpPath dir base rand) target,
        FileEvent.openDir dir, FileEvent.fsyncDir dir, FileEvent.closeDir dir],
        Except.ok true, { st with is_dirty := false })
    ∧ committer_work ops st rand (FlushFail.atomicFail AtomicStep.createTemp) =
      ([FileEvent.createTemp (tmpPath dir base rand)],
        Except.error MeshError.ioError, st)
    ∧ committer_work ops st rand (FlushFail.atomicFail AtomicStep.writeTemp) =
      ([FileEvent.createTemp (tmpPath dir base rand),
        FileEvent.write (tmpPath dir base rand) (ops.serialize_compact st.sketch),
        FileEvent.removeFile (tmpPath dir base rand) true],
        Except.error MeshError.ioError, st)
    ∧ committer_work ops st rand (FlushFail.atomicFail AtomicStep.flushTemp) =
      ([FileEvent.createTemp (tmpPath dir base rand),
        FileEvent.write (tmpPath dir base rand) (ops.serialize_compact st.sketch),
        FileEvent.flushFile (tmpPath dir base rand),
        FileEvent.removeFile (tmpPath dir base rand) true],
        Except.error MeshError.ioError, st)
    ∧ committer_work ops st rand (FlushFail.atomicFail AtomicStep.fsyncTemp) =
      ([FileEvent.createTemp (tmpPath dir base rand),
        FileEvent.write (tmpPath dir base rand) (ops.serialize_compact st.sketch),
        FileEvent.flushFile (tmpPath dir base rand),
        FileEvent.fsyncFile (tmpPath dir base rand),
        FileEvent.removeFile (tmpPath dir base rand) true],
        Except.error MeshError.ioError, st)
    ∧ committer_work ops st rand (FlushFail.atomicFail AtomicStep.renameTemp) =
      ([FileEvent.createTemp (tmpPath dir base rand),
        FileEvent.write (tmpPath dir base rand) (ops.serialize_compact st.sketch),
        FileEvent.flushFile (tmpPath dir base rand),
        FileEvent.fsyncFile (tmpPath dir base rand),
        FileEvent.renameFile (tmpPath dir base rand) target,
        FileEvent.removeFile (tmpPath dir base rand) true],
        Except.error MeshError.ioError, st)
    ∧ committer_work ops st rand (FlushFail.atomicFail AtomicStep.openDirFd) =
      ([FileEvent.createTemp (tmpPath dir base rand),
        FileEvent.write (tmpPath dir base rand) (ops.serialize_compact st.sketch),
        FileEvent.flushFile (tmpPath dir base rand),
        FileEvent.fsyncFile (tmpPath dir base rand),
        FileEvent.renameFile (tmpPath dir base rand) target,
        FileEvent.openDir dir,
        FileEvent.removeFile (tmpPath dir base rand) false],
        Except.error MeshError.ioError, st)
    ∧ committer_work ops st rand (FlushFail.atomicFail AtomicStep.fsyncDirFd) =
      ([FileEvent.createTemp (tmpPath dir base rand),
        FileEvent.write (tmpPath dir base rand) (ops.serialize_compact st.sketch),
        FileEvent.flushFile (tmpPath dir base rand),
        FileEvent.fsyncFile (tmpPath dir base rand),
        FileEvent.renameFile (tmpPath dir base rand) target,
        FileEvent.openDir dir, FileEvent.fsyncDir dir, FileEvent.closeDir dir,
        FileEvent.removeFile (tmpPath dir base rand) false],
        Except.error MeshError.ioError, st) := by
  refine ⟨?_, ?_, ?_, ?_, ?_, ?_, ?_, ?_⟩ <;>
    simp [committer_work, hnv, hf, hdn, hbn, hd, ha, atomic_replace]

/-- Witness for C4: the fault-free atomic flush on the concrete dirty DELAYED
node `c1State` produces exactly the protocol trace. -/
theorem atomic_protocol_witness :
    committer_work listSketchOps c1State "r" FlushFail.noFail =
      ([FileEvent.createTemp (tmpPath "d" "f" "r"),
        FileEvent.write (tmpPath "d" "f" "r") (listSketchOps.serialize_compact c1State.sketch),
        FileEvent.flushFile (tmpPath "d" "f" "r"),
        FileEvent.fsyncFile (tmpPath "d" "f" "r"),
        FileEvent.renameFile (tmpPath "d" "f" "r") "d/f",
        FileEvent.openDir "d", FileEvent.fsyncDir "d", FileEvent.closeDir "d"],
        Except.ok true, { c1State with is_dirty := false }) :=
  (atomic_protocol listSketchOps c1State "r" "d/f" "d" "f"
    (by decide) rfl rfl rfl rfl rfl).1

/-- `true` iff an `Except` value is a success. -/
def isOk {E A : Type} : Except E A → Bool
  | Except.ok _ => true
  | Except.error _ => false

/-- C5: the constructor resolves atomicity as
`atomicity or (durability_level != VOLATILE)`, and Python `or` treats an
explicit `False` exactly like `None`: constructing a node with DELAYED
durability and atomicity explicitly `false` yields a node whose atomicity is
`true`, overriding the caller's explicit choice (the same expression appears
in `parse_args`, so `--no-atomicity` can never take effect). -/
theorem explicit_false_atomicity_overridden :
    Except.map (fun st => st.atomicity)
      (init (List Nat) [] false false none none (some "f")
        DurabilityLevel.delayed (some false) trivialFs)
      = Except.ok true
    ∧ pyOr (some false) true = true ∧ pyOr none true = true := ⟨rfl, rfl, rfl⟩

/-- Counterexample to C6: a configuration with durability = VOLATILE and a
sketch file present is accepted by the constructor — only the atomicity flag
is checked under VOLATILE. -/
theorem volatile_with_sketch_file_accepted :
    Except.map (fun st => (st.durability_level, st.sketch_file))
      (init (List Nat) [] false false none none (some "f")
        DurabilityLevel.volatile none trivialFs)
      = Except.ok (DurabilityLevel.volatile, some "f") := rfl

/-- C6 (amended): configuration validation rejects every configuration with
durability = VOLATILE in which the resolved atomicity is on (i.e. atomicity
was explicitly `true`), and every configuration with durability ≠ VOLATILE in
which the sketch file is absent; a VOLATILE configuration with a sketch file
present is not rejected on that account. -/
theorem config_validation_rules (S : Type) (e : S) (es ec : Bool)
    (sa : Option (String × Int)) (ca : Option (List (String × Int)))
    (sf : Option String) (dl : DurabilityLevel) (atm : Option Bool) (fs : FsInfo) :
    (dl = DurabilityLevel.volatile → atm = some true →
      isOk (init S e es ec sa ca sf dl atm fs) = false)
    ∧ (dl ≠ DurabilityLevel.volatile → sf = none →
      isOk (init S e es ec sa ca sf dl atm fs) = false) := by
  constructor
  · intro h1 h2
    subst h1
    subst h2
    cases hcs : checkServerAddress sa with
    | error e' => simp [init, isOk, hcs]
    | ok u => simp [init, isOk, hcs, pyOr]
  · intro h1 h2
    subst h2
    cases hcs : checkServerAddress sa with
    | error e' => simp [init, isOk, hcs]
    | ok u => simp [init, isOk, hcs, h1]

/-- Witness for C6 (amended): both rejection rules fire on concrete
configurations — VOLATILE with explicit atomicity, and DELAYED with no
sketch file. -/
theorem config_validation_rules_witness :
    isOk (init (List Nat) [] false false none none none
      DurabilityLevel.volatile (some true) trivialFs) = false
    ∧ isOk (init (List Nat) [] false false none none none
      DurabilityLevel.delayed none trivialFs) = false :=
  ⟨(config_validation_rules (List Nat) [] false false none none none
      DurabilityLevel.volatile (some true) trivialFs).1 rfl rfl,
    (config_validation_rules (List Nat) [] false false none none none
      DurabilityLevel.delayed none trivialFs).2 (by decide) rfl⟩

/-- Counterexample to C7: a constructible VOLATILE node with a configured
sketch file (the constructor accepts this combination) performs file I/O to
that path — the one-shot load at start reads it. -/
theorem volatile_load_reads_file :
    Except.map (fun st => (reader_work listSketchOps st (some [1])).1)
      (init (List Nat) [] false false none none (some "f")
        DurabilityLevel.volatile none trivialFs)
      = Except.ok [FileEvent.openRead "f"] := rfl

/-- C7 (amended): on every VOLATILE node, the committer flush, the
signal-driven flush and the final flush on stop perform no file I/O at all
(empty trace, `false` result, state unchanged); the one-shot load at start,
however, does read the configured sketch-file path when one is configured. -/
theorem volatile_no_flush_io {S D : Type} (ops : SketchOps S D) (st : NodeState S)
    (rand : String) (fail : FlushFail)
    (h : st.durability_level = DurabilityLevel.volatile) :
    committer_work ops st rand fail = ([], Except.ok false, st)
    ∧ signal_handler_flush ops st rand fail = ([], Except.ok false, st)
    ∧ stop_handler_flush ops st rand fail = ([], Except.ok false, st)
    ∧ (∀ path bytes, st.sketch_file = some path → ops.deserialize bytes = some st.sketch →
        (reader_work ops st (some bytes)).1 = [FileEvent.openRead path]) := by
  refine ⟨?_, ?_, ?_, ?_⟩
  · simp [committer_work, h]
  · simp [signal_handler_flush, h, committer_work]
  · simp [stop_handler_flush, h, committer_work]
  · intro path bytes hp hdes
    simp [reader_work, hp, hdes]

/-- A concrete VOLATILE node with a configured sketch file, as the
constructor accepts. -/
def c7State : NodeState (List Nat) where
  enable_server := false
  enable_client := false
  server_address := none
  client_addresses := none
  sketch_file := some "f"
  sketch_file_dirname := some "."
  sketch_file_basename := some "f"
  durability_level := DurabilityLevel.volatile
  atomicity := false
  enable_committer := false
  is_dirty := true
  sketch := [1]

/-- Witness for C7 (amended): on the concrete VOLATILE node, even with the
dirty flag set, every flush entry point is a no-op with an empty I/O trace,
while the start-up load reads the configured path. -/
theorem volatile_no_flush_io_witness :
    committer_work listSketchOps c7State "r" FlushFail.noFail
      = ([], Except.ok false, c7State)
    ∧ signal_handler_flush listSketchOps c7State "r" FlushFail.noFail
      = ([], Except.ok false, c7State)
    ∧ stop_handler_flush listSketchOps c7State "r" FlushFail.noFail
      = ([], Except.ok false, c7State)
    ∧ (reader_work listSketchOps c7State (some [1])).1 = [FileEvent.openRead "f"] :=
  ⟨(volatile_no_flush_io listSketchOps c7State "r" FlushFail.noFail rfl).1,
    (volatile_no_flush_io listSketchOps c7State "r" FlushFail.noFail rfl).2.1,
    (volatile_no_flush_io listSketchOps c7State "r" FlushFail.noFail rfl).2.2.1,
    (volatile_no_flush_io listSketchOps c7State "r" FlushFail.noFail rfl).2.2.2 "f" [1] rfl rfl⟩

/-- C8: when deserialization of the inbound payload fails, the `push` RPC
handler surfaces the `CorruptSketch` error to the caller and returns the state
completely unchanged, with an empty I/O trace — the merge is never invoked. -/
theorem push_malformed_unchanged {S D : Type} (ops : SketchOps S D) (st : NodeState S)
    (bytes : List Nat) (rand : String) (fail : FlushFail)
    (h : ops.deserialize bytes = none) :
    push ops st bytes rand fail = ([], Except.error MeshError.corruptSketch, st) := by
  simp [push, h]

/-- Witness for C8: the non-canonical byte list `[2, 1]` fails to deserialize
in the concrete model, and pushing it to a concrete node returns the
`CorruptSketch` error with sketch and dirty flag untouched. -/
theorem push_malformed_unchanged_witness :
    listSketchOps.deserialize [2, 1] = none
    ∧ push listSketchOps c2State [2, 1] "r" FlushFail.noFail
        = ([], Except.error MeshError.corruptSketch, c2State) :=
  ⟨rfl, push_malformed_unchanged listSketchOps c2State [2, 1] "r" FlushFail.noFail rfl⟩

/-- If the constructor succeeds, the server address it validated is the one
stored on the node. -/
theorem init_ok_server_address {S : Type} (e : S) (es ec : Bool)
    (sa : Option (String × Int)) (ca : Option (List (String × Int)))
    (sf : Option String) (dl : DurabilityLevel) (atm : Option Bool) (fs : FsInfo)
    (st : NodeState S)
    (hok : init S e es ec sa ca sf dl atm fs = Except.ok st) :
    st.server_address = sa ∧ checkServerAddress sa = Except.ok () := by
  cases hcs : checkServerAddress sa with
  | error e' => simp [init, hcs] at hok
  | ok u =>
    refine ⟨?_, rfl⟩
    simp only [init, hcs] at hok
    split at hok
    · simp at hok
    · split at hok
      · simp at hok
      · injection hok with h
        subst h
        rfl

/-- Counterexample to C9: the constructor does not validate client addresses;
a node is constructed successfully holding the client address `("", 70000)`,
whose host is empty and whose port is outside 0..65535. -/
theorem client_addresses_not_validated :
    Except.map (fun st => st.client_addresses)
      (init (List Nat) [] false true none (some [("", 70000)]) none
        DurabilityLevel.volatile none trivialFs)
      = Except.ok (some [("", 70000)]) := rfl

/-- C9 (amended): every constructed node's server address — the only address
the constructor validates — has a non-empty host and a port in 0..65535;
client addresses are validated not by the constructor but by the
command-line front end, whose `parse_address` only ever returns addresses
satisfying the same invariants. -/
theorem address_validation (S : Type) (e : S) (es ec : Bool)
    (sa : Option (String × Int)) (ca : Option (List (String × Int)))
    (sf : Option String) (dl : DurabilityLevel) (atm : Option Bool) (fs : FsInfo) :
    (∀ st, init S e es ec sa ca sf dl atm fs = Except.ok st →
      ∀ host port, st.server_address = some (host, port) →
        host ≠ "" ∧ 0 ≤ port ∧ port ≤ 65535)
    ∧ (∀ s host port, parse_address s = Except.ok (host, port) →
        host ≠ "" ∧ 0 ≤ port ∧ port ≤ 65535) := by
  constructor
  · intro st hok host port hsa
    obtain ⟨hsv, hcs⟩ := init_ok_server_address e es ec sa ca sf dl atm fs st hok
    rw [hsv] at hsa
    subst hsa
    by_cases h1 : host = ""
    · simp [checkServerAddress, h1] at hcs
    · by_cases h2 : 0 ≤ port ∧ port ≤ 65535
      · exact ⟨h1, h2.1, h2.2⟩
      · simp [checkServerAddress, h1, h2] at hcs
  · intro s host port hp
    unfold parse_address at hp
    by_cases h1 : stripBrackets (rpartitionColon s).1 = ""
    · simp [h1] at hp
    · rw [if_neg h1] at hp
      cases hti : pyToInt (rpartitionColon s).2 with
      | none => simp [hti] at hp
      | some p0 =>
        simp only [hti] at hp
        by_cases h2 : 0 ≤ p0 ∧ p0 ≤ 65535
        · rw [if_neg (not_not_intro h2)] at hp
          injection hp with h
          injection h with hh hpp
          exact ⟨hh ▸ h1, hpp ▸ h2.1, hpp ▸ h2.2⟩
        · rw [if_pos h2] at hp
          simp at hp

/-- The concrete node produced by a successful construction with server
address `("h", 5)`. -/
def c9Node : NodeState (List Nat) where
  enable_server := true
  enable_client := false
  server_address := some ("h", 5)
  client_addresses := none
  sketch_file := none
  sketch_file_dirname := none
  sketch_file_basename := none
  durability_level := DurabilityLevel.volatile
  atomicity := false
  enable_committer := false
  is_dirty := false
  sketch := []

/-- Witness for C9 (amended): a concrete successful construction yields a
valid server address, and `parse_address` on `"[::1]:6000"` yields a valid
client address. -/
theorem address_validation_witness :
    ("h" ≠ "" ∧ (0 : Int) ≤ 5 ∧ (5 : Int) ≤ 65535)
    ∧ ("::1" ≠ "" ∧ (0 : Int) ≤ 6000 ∧ (6000 : Int) ≤ 65535) :=
  ⟨(address_validation (List Nat) [] true false (some ("h", 5)) none none
      DurabilityLevel.volatile none trivialFs).1 c9Node rfl "h" 5 rfl,
    (address_validation (List Nat) [] true false (some ("h", 5)) none none
      DurabilityLevel.volatile none trivialFs).2 "[::1]:6000" "::1" 6000 (by rfl)⟩

/-- C10: in a gossip round, `try_anti_entropy` catches exactly the transport
errors (`TTransportException`) of a peer exchange, converting them to a
`false` return that lets `client_work` continue with the next sampled peer;
any other error raised inside the exchange — in particular a `CorruptSketch`
failure deserializing the bytes the peer returned from `pull` — propagates
out of `try_anti_entropy` and aborts the whole round. -/
theorem transport_only_isolation {S D : Type} (ops : SketchOps S D) (st : NodeState S)
    (peer : PeerOutcome) (rand : String) (fail : FlushFail) :
    ((peer.pushOk = false ∨ peer.pullReply = none) →
      try_anti_entropy ops st peer rand fail = ([], Except.ok false, st))
    ∧ (∀ bytes, peer.pushOk = true → peer.pullReply = some bytes →
        ops.deserialize bytes = none →
        try_anti_entropy ops st peer rand fail
          = ([], Except.error MeshError.corruptSketch, st))
    ∧ (∀ rest tr e st', try_anti_entropy ops st peer rand fail = (tr, Except.error e, st') →
        client_work ops st (peer :: rest) rand fail = (tr, Except.error e, st'))
    ∧ (∀ rest tr b st', try_anti_entropy ops st peer rand fail = (tr, Except.ok b, st') →
        client_work ops st (peer :: rest) rand fail =
          (tr ++ (client_work ops st' rest rand fail).1,
            (client_work ops st' rest rand fail).2.1,
            (client_work ops st' rest rand fail).2.2)) := by
  refine ⟨?_, ?_, ?_, ?_⟩
  · rintro (h | h)
    · simp [try_anti_entropy, anti_entropy, push_pull, h]
    · by_cases hp : peer.pushOk = false
      · simp [try_anti_entropy, anti_entropy, push_pull, hp]
      · simp [try_anti_entropy, anti_entropy, push_pull, hp, h]
  · intro bytes hp hr hd
    simp [try_anti_entropy, anti_entropy, push_pull, hp, hr, hd]
  · intro rest tr e st' heq
    simp [client_work, heq]
  · intro rest tr b st' heq
    simp [client_work, heq]

/-- Witness for C10: an unreachable peer is swallowed as `false`, while a
peer whose pull reply is malformed raises `CorruptSketch`, which also aborts
a round over that single peer. -/
theorem transport_only_isolation_witness :
    try_anti_entropy listSketchOps c2State ⟨false, none⟩ "r" FlushFail.noFail
      = ([], Except.ok false, c2State)
    ∧ try_anti_entropy listSketchOps c2State ⟨true, some [2, 1]⟩ "r" FlushFail.noFail
      = ([], Except.error MeshError.corruptSketch, c2State)
    ∧ client_work listSketchOps c2State [⟨true, some [2, 1]⟩] "r" FlushFail.noFail
      = ([], Except.error MeshError.corruptSketch, c2State) :=
  let hb := (transport_only_isolation listSketchOps c2State ⟨true, some [2, 1]⟩ "r"
    FlushFail.noFail).2.1 [2, 1] rfl rfl rfl
  ⟨(transport_only_isolation listSketchOps c2State ⟨false, none⟩ "r"
      FlushFail.noFail).1 (Or.inl rfl),
    hb,
    (transport_only_isolation listSketchOps c2State ⟨true, some [2, 1]⟩ "r"
      FlushFail.noFail).2.2.1 [] [] MeshError.corruptSketch c2State hb⟩
